import Mathlib

/-!
Verification of the plugin selection module (`buildPlugins`) of the
cherry-studio AI-request pipeline.

The source file builds an ordered list of middleware plugins from a request
context `{ provider, model, config }` through a straight-line sequence of
independent guarded `push`es.  External collaborators (capability predicates,
the developer-mode settings read, the provider-id resolver, the reasoning tag
resolver) are modelled as an explicit environment record `Env`; plugin
factories are opaque, so a plugin instance is modelled as an inductive value
carrying exactly the parameters the selector passes to the factory.
-/

/-- Opaque external web-search plugin configuration
(`WebSearchPluginConfig` from `@cherrystudio/ai-core`); the selector never
inspects it, only tests its presence and forwards it, so it is represented by
an abstract payload. -/
structure WebSearchPluginConfig where
  payload : Nat
deriving DecidableEq, Repr

/-- Opaque external MCP tool value (`MCPTool` from `@renderer/types`); the
selector only counts these, so it is represented by an abstract payload. -/
structure MCPTool where
  payload : Nat
deriving DecidableEq, Repr

/-- The slice of `Assistant.settings` the selector reads:
`assistant?.settings?.reasoning_effort`. -/
structure AssistantSettings where
  reasoning_effort : Option String
deriving DecidableEq, Repr

/-- The slice of `Assistant` the selector reads or forwards: an identity and
the optional settings record. -/
structure Assistant where
  id : String
  settings : Option AssistantSettings
deriving DecidableEq, Repr

/-- `provider.anthropicCacheControl` as read by the selector. -/
structure AnthropicCacheControl where
  tokenThreshold : Nat
deriving DecidableEq, Repr

/-- The slice of `Provider` the selector reads: `type`, `id` and the optional
anthropic cache-control record. -/
structure Provider where
  type : String
  id : String
  anthropicCacheControl : Option AnthropicCacheControl
deriving DecidableEq, Repr

/-- The slice of `Model` the selector reads: the identity string. -/
structure Model where
  id : String
deriving DecidableEq, Repr

/-- `AiSdkMiddlewareConfig & { assistant : Assistant; topicId?: string }`,
restricted to the fields `buildPlugins` reads
(src/renderer/src/aiCore/types/middlewareConfig.ts). -/
structure AiSdkMiddlewareConfig where
  streamOutput : Bool
  isPromptToolUse : Bool
  isSupportedToolUse : Bool
  enableWebSearch : Bool
  webSearchPluginConfig : Option WebSearchPluginConfig
  mcpTools : Option (List MCPTool)
  mcpMode : Option String
  assistant : Assistant
  topicId : Option String
deriving DecidableEq, Repr

/-- `BuildPluginsContext`: the immutable input of one selection call. -/
structure BuildPluginsContext where
  provider : Provider
  model : Model
  config : AiSdkMiddlewareConfig
deriving DecidableEq, Repr

/-- The external reads `buildPlugins` performs: the developer-mode settings
read (`getEnableDeveloperMode`, module-level mutable settings state), the
capability predicates, the provider-id resolver and the reasoning-tag
resolver.  One `Env` value fixes the answers of all external calls for the
duration of one selection call. -/
structure Env where
  enableDeveloperMode : Bool
  isOllamaProvider : Provider → Bool
  isSupportedThinkingTokenQwenModel : Model → Bool
  isSupportEnableThinkingProvider : Provider → Bool
  isOpenRouterGeminiGenerateImageModel : Model → Provider → Bool
  isGemini3Model : Model → Bool
  getAiSdkProviderId : Provider → String
  getReasoningTagName : String → String

/-- Diagnostic name of a plugin, one per factory the selector can call. -/
inductive PluginName where
  | telemetry
  | reasoningExtraction
  | simulateStreaming
  | anthropicCache
  | openrouterReasoning
  | noThink
  | qwenThinking
  | openrouterGenerateImage
  | skipGeminiThoughtSignature
  | webSearch
  | searchOrchestration
  | promptToolUse
deriving DecidableEq, Repr

/-- Modelled from the spec: the plugin factories live in repository files that
are not part of this slice, so the diagnostic name string of each plugin is
taken from the spec's fixed table order
(telemetry, reasoning-extraction, simulate-streaming, cache-control,
reasoning-redaction, think-suppression, thinking-token-control,
image-generation-redirect, signature-stripping, web-search,
search-orchestration, prompt-tool-use). -/
def PluginName.str : PluginName → String
  | .telemetry => "telemetry"
  | .reasoningExtraction => "reasoning-extraction"
  | .simulateStreaming => "simulate-streaming"
  | .anthropicCache => "cache-control"
  | .openrouterReasoning => "reasoning-redaction"
  | .noThink => "think-suppression"
  | .qwenThinking => "thinking-token-control"
  | .openrouterGenerateImage => "image-generation-redirect"
  | .skipGeminiThoughtSignature => "signature-stripping"
  | .webSearch => "web-search"
  | .searchOrchestration => "search-orchestration"
  | .promptToolUse => "prompt-tool-use"

/-- An `AiPlugin` instance as produced by one of the twelve factory calls in
`buildPlugins`; each constructor carries exactly the parameters the selector
passes to the corresponding factory. -/
inductive AiPlugin where
  | telemetry (enabled : Bool) (topicId : String) (assistant : Assistant)
  | reasoningExtraction (tagName : String)
  | simulateStreaming
  | anthropicCache
  | openrouterReasoning
  | noThink
  | qwenThinking (enableThinking : Bool)
  | openrouterGenerateImage
  | skipGeminiThoughtSignature (aiSdkId : String)
  | webSearch (cfg : WebSearchPluginConfig)
  | searchOrchestration (assistant : Assistant) (topicId : String)
  | promptToolUse (enabled : Bool) (mcpMode : Option String)
deriving DecidableEq, Repr

/-- The diagnostic name of a plugin instance. -/
def AiPlugin.name : AiPlugin → PluginName
  | .telemetry .. => .telemetry
  | .reasoningExtraction .. => .reasoningExtraction
  | .simulateStreaming => .simulateStreaming
  | .anthropicCache => .anthropicCache
  | .openrouterReasoning => .openrouterReasoning
  | .noThink => .noThink
  | .qwenThinking .. => .qwenThinking
  | .openrouterGenerateImage => .openrouterGenerateImage
  | .skipGeminiThoughtSignature .. => .skipGeminiThoughtSignature
  | .webSearch .. => .webSearch
  | .searchOrchestration .. => .searchOrchestration
  | .promptToolUse .. => .promptToolUse

/-- JavaScript truthiness of an optional string: `undefined` and the empty
string are falsy. -/
def truthyStr : Option String → Bool
  | none => false
  | some s => s ≠ ""

/-- Modelled from the spec: `SystemProviderIds.openrouter`
(`@renderer/types`, not in this slice) is the identity of the well-known
reasoning-redaction provider; represented by the literal id string. -/
def SystemProviderIds.openrouter : String := "openrouter"

/-- Guard of rule 0 (line 45): `config.topicId && getEnableDeveloperMode()`. -/
def telemetryGuard (env : Env) (ctx : BuildPluginsContext) : Bool :=
  truthyStr ctx.config.topicId && env.enableDeveloperMode

/-- Guard of rule 1 (line 65):
`providerType === 'openai' || providerType === 'azure-openai'`. -/
def reasoningExtractionGuard (ctx : BuildPluginsContext) : Bool :=
  ctx.provider.type == "openai" || ctx.provider.type == "azure-openai"

/-- Guard of rule 2 (line 71): `!config.streamOutput`. -/
def simulateStreamingGuard (ctx : BuildPluginsContext) : Bool :=
  !ctx.config.streamOutput

/-- Guard of rule 3 (line 75): `providerType === 'anthropic' &&
provider.anthropicCacheControl?.tokenThreshold` (a number is truthy iff
nonzero; the optional chain is falsy when the record is absent). -/
def anthropicCacheGuard (ctx : BuildPluginsContext) : Bool :=
  ctx.provider.type == "anthropic" &&
    (match ctx.provider.anthropicCacheControl with
      | some cc => cc.tokenThreshold != 0
      | none => false)

/-- Guard of rule 4 (line 80): `provider.id === SystemProviderIds.openrouter`. -/
def openrouterReasoningGuard (ctx : BuildPluginsContext) : Bool :=
  ctx.provider.id == SystemProviderIds.openrouter

/-- Guard of rule 5 (line 85): `provider.id === 'ovms' && config.mcpTools &&
config.mcpTools.length > 0` (an array is always truthy, so only the length
test matters once it is present). -/
def noThinkGuard (ctx : BuildPluginsContext) : Bool :=
  ctx.provider.id == "ovms" &&
    (match ctx.config.mcpTools with
      | some ts => decide (ts.length > 0)
      | none => false)

/-- Guard of rule 6 (lines 90-94): `!isOllamaProvider(provider) &&
isSupportedThinkingTokenQwenModel(model) &&
!isSupportEnableThinkingProvider(provider)`. -/
def qwenThinkingGuard (env : Env) (ctx : BuildPluginsContext) : Bool :=
  !env.isOllamaProvider ctx.provider &&
    env.isSupportedThinkingTokenQwenModel ctx.model &&
    !env.isSupportEnableThinkingProvider ctx.provider

/-- Parameter of rule 6 (line 95):
`config.assistant?.settings?.reasoning_effort !== undefined`. -/
def enableThinkingFlag (ctx : BuildPluginsContext) : Bool :=
  (ctx.config.assistant.settings.bind (fun s => s.reasoning_effort)).isSome

/-- Guard of rule 7 (line 100):
`isOpenRouterGeminiGenerateImageModel(model, provider)`. -/
def generateImageGuard (env : Env) (ctx : BuildPluginsContext) : Bool :=
  env.isOpenRouterGeminiGenerateImageModel ctx.model ctx.provider

/-- Guard of rule 8 (line 105): `isGemini3Model(model)`. -/
def gemini3Guard (env : Env) (ctx : BuildPluginsContext) : Bool :=
  env.isGemini3Model ctx.model

/-- Guard of rule 9 (line 111):
`config.enableWebSearch && config.webSearchPluginConfig`. -/
def webSearchGuard (ctx : BuildPluginsContext) : Bool :=
  ctx.config.enableWebSearch && ctx.config.webSearchPluginConfig.isSome

/-- Guard of rule 10 (line 115):
`config.isSupportedToolUse || config.isPromptToolUse`. -/
def searchOrchestrationGuard (ctx : BuildPluginsContext) : Bool :=
  ctx.config.isSupportedToolUse || ctx.config.isPromptToolUse

/-- Guard of rule 11 (line 125): `config.isPromptToolUse`. -/
def promptToolUseGuard (ctx : BuildPluginsContext) : Bool :=
  ctx.config.isPromptToolUse

/-- `buildPlugins` (src/unnamed/part_000, lines 42-143): the sequential
guarded pushes of the source, written as sequential list extensions.  The
diagnostic `logger.debug` call at the end has no effect on the result and is
omitted. -/
def buildPlugins (env : Env) (ctx : BuildPluginsContext) : List AiPlugin :=
  let config := ctx.config
  let plugins : List AiPlugin := []
  -- 0. telemetry (line 45)
  let plugins :=
    if telemetryGuard env ctx then
      plugins ++ [.telemetry true (config.topicId.getD "") config.assistant]
    else plugins
  -- 0.1 reasoning extraction for OpenAI/Azure providers (line 65)
  let plugins :=
    if reasoningExtractionGuard ctx then
      plugins ++ [.reasoningExtraction (env.getReasoningTagName ctx.model.id.toLower)]
    else plugins
  -- 0.2 simulate streaming for non-streaming requests (line 71)
  let plugins :=
    if simulateStreamingGuard ctx then plugins ++ [.simulateStreaming]
    else plugins
  -- anthropic cache control (line 75)
  let plugins :=
    if anthropicCacheGuard ctx then plugins ++ [.anthropicCache]
    else plugins
  -- 0.3 OpenRouter reasoning redaction (line 80)
  let plugins :=
    if openrouterReasoningGuard ctx then plugins ++ [.openrouterReasoning]
    else plugins
  -- 0.4 OVMS no-think for MCP tools (line 85)
  let plugins :=
    if noThinkGuard ctx then plugins ++ [.noThink]
    else plugins
  -- 0.5 Qwen thinking control (line 90)
  let plugins :=
    if qwenThinkingGuard env ctx then
      plugins ++ [.qwenThinking (enableThinkingFlag ctx)]
    else plugins
  -- 0.6 OpenRouter Gemini image generation (line 100)
  let plugins :=
    if generateImageGuard env ctx then plugins ++ [.openrouterGenerateImage]
    else plugins
  -- 0.7 skip Gemini3 thought signature (line 105)
  let plugins :=
    if gemini3Guard env ctx then
      plugins ++ [.skipGeminiThoughtSignature (env.getAiSdkProviderId ctx.provider)]
    else plugins
  -- 1. built-in web search (line 111)
  let plugins :=
    if webSearchGuard ctx then
      plugins ++ [.webSearch (config.webSearchPluginConfig.getD ⟨0⟩)]
    else plugins
  -- 2. search orchestration when tool use is available (line 115)
  let plugins :=
    if searchOrchestrationGuard ctx then
      plugins ++ [.searchOrchestration config.assistant (config.topicId.getD "")]
    else plugins
  -- 4. prompt tool use (line 125)
  let plugins :=
    if promptToolUseGuard ctx then
      plugins ++ [.promptToolUse true config.mcpMode]
    else plugins
  plugins

/-- The external calls of `buildPlugins` under exception semantics: every
predicate, resolver and plugin factory may throw (`Except.error`) instead of
returning. -/
structure EnvE (ε : Type) where
  getEnableDeveloperMode : Except ε Bool
  isOllamaProvider : Provider → Except ε Bool
  isSupportedThinkingTokenQwenModel : Model → Except ε Bool
  isSupportEnableThinkingProvider : Provider → Except ε Bool
  isOpenRouterGeminiGenerateImageModel : Model → Provider → Except ε Bool
  isGemini3Model : Model → Except ε Bool
  getAiSdkProviderId : Provider → Except ε String
  getReasoningTagName : String → Except ε String
  createTelemetryPlugin : Bool → String → Assistant → Except ε AiPlugin
  createReasoningExtractionPlugin : String → Except ε AiPlugin
  createSimulateStreamingPlugin : Except ε AiPlugin
  createAnthropicCachePlugin : Except ε AiPlugin
  createOpenrouterReasoningPlugin : Except ε AiPlugin
  createNoThinkPlugin : Except ε AiPlugin
  createQwenThinkingPlugin : Bool → Except ε AiPlugin
  createOpenrouterGenerateImagePlugin : Except ε AiPlugin
  createSkipGeminiThoughtSignaturePlugin : String → Except ε AiPlugin
  webSearchPlugin : WebSearchPluginConfig → Except ε AiPlugin
  searchOrchestrationPlugin : Assistant → String → Except ε AiPlugin
  createPromptToolUsePlugin : Bool → Option String → Except ε AiPlugin

/-- One guarded push under exception semantics: when the guard holds the
factory runs (and may throw) and its plugin is appended, otherwise the
factory is not consulted. -/
def pushIfE {ε : Type} (g : Bool) (mk : Except ε AiPlugin)
    (l : List AiPlugin) : Except ε (List AiPlugin) :=
  if g then do
    let p ← mk
    pure (l ++ [p])
  else pure l

/-- `buildPlugins` under exception semantics: the same twelve guarded pushes,
with every external call routed through `Except` and guards short-circuiting
exactly as the source's `&&` chains do (an external call is evaluated only
when the source would reach it). -/
def buildPluginsE {ε : Type} (env : EnvE ε) (ctx : BuildPluginsContext) :
    Except ε (List AiPlugin) := do
  let config := ctx.config
  -- 0. telemetry: `config.topicId && getEnableDeveloperMode()`
  let dev ← if truthyStr config.topicId then env.getEnableDeveloperMode else pure false
  let plugins ← pushIfE (truthyStr config.topicId && dev)
    (env.createTelemetryPlugin true (config.topicId.getD "") config.assistant) []
  -- 0.1 reasoning extraction
  let plugins ← pushIfE (reasoningExtractionGuard ctx)
    (do
      let tagName ← env.getReasoningTagName ctx.model.id.toLower
      env.createReasoningExtractionPlugin tagName) plugins
  -- 0.2 simulate streaming
  let plugins ← pushIfE (simulateStreamingGuard ctx)
    env.createSimulateStreamingPlugin plugins
  -- anthropic cache control
  let plugins ← pushIfE (anthropicCacheGuard ctx)
    env.createAnthropicCachePlugin plugins
  -- 0.3 OpenRouter reasoning redaction
  let plugins ← pushIfE (openrouterReasoningGuard ctx)
    env.createOpenrouterReasoningPlugin plugins
  -- 0.4 OVMS no-think
  let plugins ← pushIfE (noThinkGuard ctx) env.createNoThinkPlugin plugins
  -- 0.5 Qwen thinking control (short-circuiting `&&` chain)
  let gq ← do
    let b1 ← env.isOllamaProvider ctx.provider
    if b1 then pure false
    else do
      let b2 ← env.isSupportedThinkingTokenQwenModel ctx.model
      if b2 then do
        let b3 ← env.isSupportEnableThinkingProvider ctx.provider
        pure (!b3)
      else pure false
  let plugins ← pushIfE gq
    (env.createQwenThinkingPlugin (enableThinkingFlag ctx)) plugins
  -- 0.6 OpenRouter Gemini image generation
  let g7 ← env.isOpenRouterGeminiGenerateImageModel ctx.model ctx.provider
  let plugins ← pushIfE g7 env.createOpenrouterGenerateImagePlugin plugins
  -- 0.7 skip Gemini3 thought signature
  let g8 ← env.isGemini3Model ctx.model
  let plugins ← pushIfE g8
    (do
      let aiSdkId ← env.getAiSdkProviderId ctx.provider
      env.createSkipGeminiThoughtSignaturePlugin aiSdkId) plugins
  -- 1. built-in web search
  let plugins ← pushIfE (webSearchGuard ctx)
    (env.webSearchPlugin (config.webSearchPluginConfig.getD ⟨0⟩)) plugins
  -- 2. search orchestration
  let plugins ← pushIfE (searchOrchestrationGuard ctx)
    (env.searchOrchestrationPlugin config.assistant (config.topicId.getD "")) plugins
  -- 4. prompt tool use
  let plugins ← pushIfE (promptToolUseGuard ctx)
    (env.createPromptToolUsePlugin true config.mcpMode) plugins
  pure plugins

/-- The exception-semantics environment of a total environment: every
external call succeeds, the factories returning the plugin instances of the
pure model. -/
def EnvE.ofEnv {ε : Type} (env : Env) : EnvE ε where
  getEnableDeveloperMode := .ok env.enableDeveloperMode
  isOllamaProvider := fun p => .ok (env.isOllamaProvider p)
  isSupportedThinkingTokenQwenModel := fun m => .ok (env.isSupportedThinkingTokenQwenModel m)
  isSupportEnableThinkingProvider := fun p => .ok (env.isSupportEnableThinkingProvider p)
  isOpenRouterGeminiGenerateImageModel := fun m p => .ok (env.isOpenRouterGeminiGenerateImageModel m p)
  isGemini3Model := fun m => .ok (env.isGemini3Model m)
  getAiSdkProviderId := fun p => .ok (env.getAiSdkProviderId p)
  getReasoningTagName := fun s => .ok (env.getReasoningTagName s)
  createTelemetryPlugin := fun e t a => .ok (.telemetry e t a)
  createReasoningExtractionPlugin := fun tag => .ok (.reasoningExtraction tag)
  createSimulateStreamingPlugin := .ok .simulateStreaming
  createAnthropicCachePlugin := .ok .anthropicCache
  createOpenrouterReasoningPlugin := .ok .openrouterReasoning
  createNoThinkPlugin := .ok .noThink
  createQwenThinkingPlugin := fun b => .ok (.qwenThinking b)
  createOpenrouterGenerateImagePlugin := .ok .openrouterGenerateImage
  createSkipGeminiThoughtSignaturePlugin := fun s => .ok (.skipGeminiThoughtSignature s)
  webSearchPlugin := fun c => .ok (.webSearch c)
  searchOrchestrationPlugin := fun a t => .ok (.searchOrchestration a t)
  createPromptToolUsePlugin := fun e m => .ok (.promptToolUse e m)

/-- A concrete environment in which every external predicate answers
`false` and developer mode is off. -/
def envNone : Env where
  enableDeveloperMode := false
  isOllamaProvider := fun _ => false
  isSupportedThinkingTokenQwenModel := fun _ => false
  isSupportEnableThinkingProvider := fun _ => false
  isOpenRouterGeminiGenerateImageModel := fun _ _ => false
  isGemini3Model := fun _ => false
  getAiSdkProviderId := fun _ => "openai"
  getReasoningTagName := fun _ => "think"

/-- `envNone` with developer mode on; it differs from `envNone` only in the
module-level developer-mode settings state. -/
def envDev : Env := { envNone with enableDeveloperMode := true }

/-- A concrete assistant without settings. -/
def assistantW : Assistant := { id := "a1", settings := none }

/-- A concrete configuration on which every guard is false. -/
def configW : AiSdkMiddlewareConfig where
  streamOutput := true
  isPromptToolUse := false
  isSupportedToolUse := false
  enableWebSearch := false
  webSearchPluginConfig := none
  mcpTools := none
  mcpMode := none
  assistant := assistantW
  topicId := none

/-- A concrete context on which every guard is false under `envNone`. -/
def ctxW : BuildPluginsContext where
  provider := { type := "custom", id := "p1", anthropicCacheControl := none }
  model := { id := "m1" }
  config := configW

/-- `ctxW` with a non-empty topic id. -/
def ctxTopic : BuildPluginsContext :=
  { ctxW with config := { configW with topicId := some "t1" } }

/-- `ctxW` with an openai provider and streaming disabled. -/
def ctxOpenai : BuildPluginsContext :=
  { ctxW with
    provider := { type := "openai", id := "p1", anthropicCacheControl := none }
    config := { configW with streamOutput := false } }

/-- `ctxW` with both native and prompt-simulated tool use enabled. -/
def ctxTools : BuildPluginsContext :=
  { ctxW with
    config := { configW with isPromptToolUse := true, isSupportedToolUse := true } }

/-- The spec's example context: openai provider, model `gpt-4o`, streaming
off, all tool-use and web-search flags off. -/
def ctxGpt4o : BuildPluginsContext :=
  { ctxW with
    provider := { type := "openai", id := "p1", anthropicCacheControl := none }
    model := { id := "gpt-4o" }
    config := { configW with streamOutput := false } }

/-- The diagnostic name sequence of one selection call (what the source logs
and what the spec's properties quantify over). -/
def pluginNames (env : Env) (ctx : BuildPluginsContext) : List PluginName :=
  (buildPlugins env ctx).map AiPlugin.name

/-- The spec's fixed table order of the twelve rules. -/
def tableOrder : List PluginName :=
  [.telemetry, .reasoningExtraction, .simulateStreaming, .anthropicCache,
   .openrouterReasoning, .noThink, .qwenThinking, .openrouterGenerateImage,
   .skipGeminiThoughtSignature, .webSearch, .searchOrchestration, .promptToolUse]

/-- A guarded singleton append commutes to a guarded singleton block. -/
theorem push_if {α : Type} (g : Bool) (l : List α) (p : α) :
    (if g = true then l ++ [p] else l) = l ++ (if g = true then [p] else []) := by
  cases g <;> simp

/-- `buildPlugins` decomposed into one independent guarded block per rule, in
the fixed source order. -/
theorem buildPlugins_blocks (env : Env) (ctx : BuildPluginsContext) :
    buildPlugins env ctx =
      (if telemetryGuard env ctx then
        [.telemetry true (ctx.config.topicId.getD "") ctx.config.assistant] else []) ++
      ((if reasoningExtractionGuard ctx then
        [.reasoningExtraction (env.getReasoningTagName ctx.model.id.toLower)] else []) ++
      ((if simulateStreamingGuard ctx then [.simulateStreaming] else []) ++
      ((if anthropicCacheGuard ctx then [.anthropicCache] else []) ++
      ((if openrouterReasoningGuard ctx then [.openrouterReasoning] else []) ++
      ((if noThinkGuard ctx then [.noThink] else []) ++
      ((if qwenThinkingGuard env ctx then
        [.qwenThinking (enableThinkingFlag ctx)] else []) ++
      ((if generateImageGuard env ctx then [.openrouterGenerateImage] else []) ++
      ((if gemini3Guard env ctx then
        [.skipGeminiThoughtSignature (env.getAiSdkProviderId ctx.provider)] else []) ++
      ((if webSearchGuard ctx then
        [.webSearch (ctx.config.webSearchPluginConfig.getD ⟨0⟩)] else []) ++
      ((if searchOrchestrationGuard ctx then
        [.searchOrchestration ctx.config.assistant (ctx.config.topicId.getD "")] else []) ++
      (if promptToolUseGuard ctx then
        [.promptToolUse true ctx.config.mcpMode] else []))))))))))) := by
  unfold buildPlugins
  simp only [push_if]
  simp only [List.nil_append, List.append_assoc]

/-- Mapping a guarded singleton block. -/
theorem map_block {α β : Type} (f : α → β) (g : Bool) (p : α) :
    (if g = true then [p] else []).map f = (if g = true then [f p] else []) := by
  cases g <;> simp

/-- The name sequence decomposed into one guarded name block per rule. -/
theorem pluginNames_blocks (env : Env) (ctx : BuildPluginsContext) :
    pluginNames env ctx =
      (if telemetryGuard env ctx then [PluginName.telemetry] else []) ++
      ((if reasoningExtractionGuard ctx then [PluginName.reasoningExtraction] else []) ++
      ((if simulateStreamingGuard ctx then [PluginName.simulateStreaming] else []) ++
      ((if anthropicCacheGuard ctx then [PluginName.anthropicCache] else []) ++
      ((if openrouterReasoningGuard ctx then [PluginName.openrouterReasoning] else []) ++
      ((if noThinkGuard ctx then [PluginName.noThink] else []) ++
      ((if qwenThinkingGuard env ctx then [PluginName.qwenThinking] else []) ++
      ((if generateImageGuard env ctx then [PluginName.openrouterGenerateImage] else []) ++
      ((if gemini3Guard env ctx then [PluginName.skipGeminiThoughtSignature] else []) ++
      ((if webSearchGuard ctx then [PluginName.webSearch] else []) ++
      ((if searchOrchestrationGuard ctx then [PluginName.searchOrchestration] else []) ++
      (if promptToolUseGuard ctx then [PluginName.promptToolUse] else []))))))))))) := by
  unfold pluginNames
  rw [buildPlugins_blocks]
  simp only [List.map_append, map_block, AiPlugin.name]

/-- A guarded singleton block followed by a sublist of the tail is a sublist
of the cons. -/
theorem sublist_block_cons {α : Type} (g : Bool) (a : α) {l l' : List α}
    (h : l.Sublist l') : ((if g = true then [a] else []) ++ l).Sublist (a :: l') := by
  cases g
  · simpa using h.cons a
  · simpa using h.cons₂ a

/-- A guarded singleton block is a sublist of the singleton. -/
theorem sublist_block_singleton {α : Type} (g : Bool) (a : α) :
    (if g = true then [a] else []).Sublist [a] := by
  cases g <;> simp

/-- The name sequence is always a sublist of the fixed table order. -/
theorem pluginNames_sublist (env : Env) (ctx : BuildPluginsContext) :
    (pluginNames env ctx).Sublist tableOrder := by
  rw [pluginNames_blocks]
  unfold tableOrder
  exact sublist_block_cons _ _ (sublist_block_cons _ _ (sublist_block_cons _ _
    (sublist_block_cons _ _ (sublist_block_cons _ _ (sublist_block_cons _ _
    (sublist_block_cons _ _ (sublist_block_cons _ _ (sublist_block_cons _ _
    (sublist_block_cons _ _ (sublist_block_cons _ _
    (sublist_block_singleton _ _)))))))))))

/-- Membership in a guarded singleton block. -/
theorem mem_block {α : Type} (x a : α) (g : Bool) :
    x ∈ (if g = true then [a] else []) ↔ (g = true ∧ x = a) := by
  cases g <;> simp

/-- C2: the twelve selection rules are evaluated independently with no early
exit; each rule appends at most one plugin, a rule's plugin appears in the
output iff its guard holds, the plugins that do appear occur in the fixed
table order (telemetry, reasoning-extraction, simulate-streaming,
cache-control, reasoning-redaction, think-suppression,
thinking-token-control, image-generation-redirect, signature-stripping,
web-search, search-orchestration, prompt-tool-use), no plugin is duplicated
and the output length is at most twelve. -/
theorem buildPlugins_rule_table (env : Env) (ctx : BuildPluginsContext) :
    (pluginNames env ctx).Sublist tableOrder ∧
    (pluginNames env ctx).Nodup ∧
    (pluginNames env ctx).length ≤ 12 ∧
    tableOrder.map PluginName.str =
      ["telemetry", "reasoning-extraction", "simulate-streaming",
       "cache-control", "reasoning-redaction", "think-suppression",
       "thinking-token-control", "image-generation-redirect",
       "signature-stripping", "web-search", "search-orchestration",
       "prompt-tool-use"] ∧
    (PluginName.telemetry ∈ pluginNames env ctx ↔ telemetryGuard env ctx = true) ∧
    (PluginName.reasoningExtraction ∈ pluginNames env ctx ↔ reasoningExtractionGuard ctx = true) ∧
    (PluginName.simulateStreaming ∈ pluginNames env ctx ↔ simulateStreamingGuard ctx = true) ∧
    (PluginName.anthropicCache ∈ pluginNames env ctx ↔ anthropicCacheGuard ctx = true) ∧
    (PluginName.openrouterReasoning ∈ pluginNames env ctx ↔ openrouterReasoningGuard ctx = true) ∧
    (PluginName.noThink ∈ pluginNames env ctx ↔ noThinkGuard ctx = true) ∧
    (PluginName.qwenThinking ∈ pluginNames env ctx ↔ qwenThinkingGuard env ctx = true) ∧
    (PluginName.openrouterGenerateImage ∈ pluginNames env ctx ↔ generateImageGuard env ctx = true) ∧
    (PluginName.skipGeminiThoughtSignature ∈ pluginNames env ctx ↔ gemini3Guard env ctx = true) ∧
    (PluginName.webSearch ∈ pluginNames env ctx ↔ webSearchGuard ctx = true) ∧
    (PluginName.searchOrchestration ∈ pluginNames env ctx ↔ searchOrchestrationGuard ctx = true) ∧
    (PluginName.promptToolUse ∈ pluginNames env ctx ↔ promptToolUseGuard ctx = true) := by
  have hsub := pluginNames_sublist env ctx
  refine ⟨hsub, hsub.nodup (by decide), ?_, by decide, ?_, ?_, ?_, ?_, ?_, ?_, ?_, ?_, ?_, ?_, ?_, ?_⟩
  · simpa using hsub.length_le
  all_goals
    rw [pluginNames_blocks]
    simp [List.mem_append, mem_block]

/-- A guarded singleton block whose guard holds is the singleton. -/
theorem block_true {α : Type} {g : Bool} (h : g = true) (a : α) :
    (if g = true then [a] else []) = [a] := by simp [h]

/-- The two leading elements of a list occur at strictly increasing
indices. -/
theorem exists_adjacent_cons {α : Type} (x y : α) (rest : List α) :
    ∃ i j : Nat, i < j ∧ (x :: y :: rest)[i]? = some x ∧
      (x :: y :: rest)[j]? = some y :=
  ⟨0, 1, by omega, by simp, by simp⟩

/-- Strictly increasing index positions survive prepending a prefix. -/
theorem exists_adjacent_append {α : Type} (a : List α) {l : List α} {x y : α}
    (h : ∃ i j : Nat, i < j ∧ l[i]? = some x ∧ l[j]? = some y) :
    ∃ i j : Nat, i < j ∧ (a ++ l)[i]? = some x ∧ (a ++ l)[j]? = some y := by
  obtain ⟨i, j, hij, hx, hy⟩ := h
  refine ⟨a.length + i, a.length + j, by omega, ?_, ?_⟩
  · rw [List.getElem?_append_right (by omega)]
    simpa using hx
  · rw [List.getElem?_append_right (by omega)]
    simpa using hy

/-- C3: for a context whose provider type matches rule 1 (openai /
azure-openai) and that is not configured for streamed output (rule 2), both
the reasoning-extraction plugin and the simulate-streaming plugin appear,
and reasoning-extraction's index is strictly lower than
simulate-streaming's. -/
theorem reasoningExtraction_before_simulateStreaming (env : Env)
    (ctx : BuildPluginsContext)
    (h1 : reasoningExtractionGuard ctx = true)
    (h2 : simulateStreamingGuard ctx = true) :
    PluginName.reasoningExtraction ∈ pluginNames env ctx ∧
    PluginName.simulateStreaming ∈ pluginNames env ctx ∧
    ∃ i j : Nat, i < j ∧
      (pluginNames env ctx)[i]? = some PluginName.reasoningExtraction ∧
      (pluginNames env ctx)[j]? = some PluginName.simulateStreaming := by
  rw [pluginNames_blocks, block_true h1, block_true h2,
    List.singleton_append, List.singleton_append]
  exact ⟨by simp, by simp, exists_adjacent_append _ (exists_adjacent_cons _ _ _)⟩

/-- C1 (amended): selection is a pure function of the context together with
the values of the external reads at that context; two calls whose contexts
are structurally identical and whose external reads (including the
developer-mode settings state behind `getEnableDeveloperMode`) agree on that
context return identical plugin sequences, hence identical plugin names in
identical order. -/
theorem buildPlugins_deterministic (env₁ env₂ : Env)
    (c₁ c₂ : BuildPluginsContext) (hctx : c₁ = c₂)
    (hdev : env₁.enableDeveloperMode = env₂.enableDeveloperMode)
    (ho : env₁.isOllamaProvider c₁.provider = env₂.isOllamaProvider c₁.provider)
    (hq : env₁.isSupportedThinkingTokenQwenModel c₁.model =
      env₂.isSupportedThinkingTokenQwenModel c₁.model)
    (he : env₁.isSupportEnableThinkingProvider c₁.provider =
      env₂.isSupportEnableThinkingProvider c₁.provider)
    (hi : env₁.isOpenRouterGeminiGenerateImageModel c₁.model c₁.provider =
      env₂.isOpenRouterGeminiGenerateImageModel c₁.model c₁.provider)
    (hg : env₁.isGemini3Model c₁.model = env₂.isGemini3Model c₁.model)
    (ha : env₁.getAiSdkProviderId c₁.provider = env₂.getAiSdkProviderId c₁.provider)
    (ht : env₁.getReasoningTagName c₁.model.id.toLower =
      env₂.getReasoningTagName c₁.model.id.toLower) :
    buildPlugins env₁ c₁ = buildPlugins env₂ c₂ ∧
      pluginNames env₁ c₁ = pluginNames env₂ c₂ := by
  subst hctx
  have hmain : buildPlugins env₁ c₁ = buildPlugins env₂ c₁ := by
    rw [buildPlugins_blocks, buildPlugins_blocks]
    simp only [telemetryGuard, qwenThinkingGuard, generateImageGuard,
      gemini3Guard, hdev, ho, hq, he, hi, hg, ha, ht]
  exact ⟨hmain, by rw [pluginNames, pluginNames, hmain]⟩

/-- C1 witness: the determinism theorem applied at a concrete context and
environment. -/
theorem buildPlugins_deterministic_witness :
    buildPlugins envNone ctxW = buildPlugins envNone ctxW ∧
      pluginNames envNone ctxW = pluginNames envNone ctxW :=
  buildPlugins_deterministic envNone envNone ctxW ctxW rfl rfl rfl rfl rfl rfl
    rfl rfl rfl

/-- C1 counterexample: with the same structurally identical context (a
truthy topic id) but a different developer-mode settings state — all other
external reads unchanged — the returned plugin-name sequences differ, so the
selection outcome is influenced by module-level state other than the
diagnostic logger. -/
theorem telemetry_depends_on_developerMode :
    pluginNames envDev ctxTopic ≠
      pluginNames { envDev with enableDeveloperMode := false } ctxTopic := by
  decide

/-- C4: for a context on which every one of the twelve guards evaluates
false, `buildPlugins` returns the empty sequence. -/
theorem buildPlugins_empty (env : Env) (ctx : BuildPluginsContext)
    (h0 : telemetryGuard env ctx = false)
    (h1 : reasoningExtractionGuard ctx = false)
    (h2 : simulateStreamingGuard ctx = false)
    (h3 : anthropicCacheGuard ctx = false)
    (h4 : openrouterReasoningGuard ctx = false)
    (h5 : noThinkGuard ctx = false)
    (h6 : qwenThinkingGuard env ctx = false)
    (h7 : generateImageGuard env ctx = false)
    (h8 : gemini3Guard env ctx = false)
    (h9 : webSearchGuard ctx = false)
    (h10 : searchOrchestrationGuard ctx = false)
    (h11 : promptToolUseGuard ctx = false) :
    buildPlugins env ctx = [] := by
  rw [buildPlugins_blocks]
  simp [h0, h1, h2, h3, h4, h5, h6, h7, h8, h9, h10, h11]

/-- C4 witness: on `ctxW` under `envNone` every guard is false and the
selection is empty. -/
theorem buildPlugins_empty_witness : buildPlugins envNone ctxW = [] :=
  buildPlugins_empty envNone ctxW (by decide) (by decide) (by decide)
    (by decide) (by decide) (by decide) (by decide) (by decide) (by decide)
    (by decide) (by decide) (by decide)

/-- C5: when developer-mode tracing is disabled, the telemetry plugin never
appears, whatever the values of all other context fields (including the
topic id). -/
theorem no_telemetry_without_developerMode (env : Env)
    (ctx : BuildPluginsContext) (h : env.enableDeveloperMode = false) :
    PluginName.telemetry ∉ pluginNames env ctx := by
  rw [pluginNames_blocks]
  simp [List.mem_append, mem_block, telemetryGuard, h]

/-- C5 witness: developer mode off, topic id present, no telemetry. -/
theorem no_telemetry_without_developerMode_witness :
    PluginName.telemetry ∉ pluginNames envNone ctxTopic :=
  no_telemetry_without_developerMode envNone ctxTopic rfl

/-- C6: for a context enabling both native tool use and prompt-simulated
tool use, both the search-orchestration plugin and the prompt-tool-use
plugin appear, with search-orchestration at a strictly lower index. -/
theorem searchOrchestration_before_promptToolUse (env : Env)
    (ctx : BuildPluginsContext)
    (h1 : ctx.config.isSupportedToolUse = true)
    (h2 : ctx.config.isPromptToolUse = true) :
    PluginName.searchOrchestration ∈ pluginNames env ctx ∧
    PluginName.promptToolUse ∈ pluginNames env ctx ∧
    ∃ i j : Nat, i < j ∧
      (pluginNames env ctx)[i]? = some PluginName.searchOrchestration ∧
      (pluginNames env ctx)[j]? = some PluginName.promptToolUse := by
  have g10 : searchOrchestrationGuard ctx = true := by
    simp [searchOrchestrationGuard, h1]
  have g11 : promptToolUseGuard ctx = true := by
    simp [promptToolUseGuard, h2]
  rw [pluginNames_blocks, block_true g10, block_true g11, List.singleton_append]
  refine ⟨by simp, by simp, ?_⟩
  exact exists_adjacent_append _ (exists_adjacent_append _
    (exists_adjacent_append _ (exists_adjacent_append _
    (exists_adjacent_append _ (exists_adjacent_append _
    (exists_adjacent_append _ (exists_adjacent_append _
    (exists_adjacent_append _ (exists_adjacent_append _
    (exists_adjacent_cons _ _ _))))))))))

/-- C6 witness: both tool-use flags on, the pair appears in order. -/
theorem searchOrchestration_before_promptToolUse_witness :
    PluginName.searchOrchestration ∈ pluginNames envNone ctxTools ∧
    PluginName.promptToolUse ∈ pluginNames envNone ctxTools ∧
    ∃ i j : Nat, i < j ∧
      (pluginNames envNone ctxTools)[i]? = some PluginName.searchOrchestration ∧
      (pluginNames envNone ctxTools)[j]? = some PluginName.promptToolUse :=
  searchOrchestration_before_promptToolUse envNone ctxTools rfl rfl

/-- C7: on the spec's example context — openai provider, model `gpt-4o`,
streaming off, tool-use and web-search flags off, and every remaining guard
false — the returned plugin names are exactly
`["reasoning-extraction", "simulate-streaming"]`, in that order. -/
theorem buildPlugins_gpt4o_example (env : Env) (ctx : BuildPluginsContext)
    (hp : ctx.provider.type = "openai")
    (_hm : ctx.model.id = "gpt-4o")
    (hs : ctx.config.streamOutput = false)
    (hpt : ctx.config.isPromptToolUse = false)
    (hst : ctx.config.isSupportedToolUse = false)
    (hws : ctx.config.enableWebSearch = false)
    (h0 : telemetryGuard env ctx = false)
    (h4 : openrouterReasoningGuard ctx = false)
    (h5 : noThinkGuard ctx = false)
    (h6 : qwenThinkingGuard env ctx = false)
    (h7 : generateImageGuard env ctx = false)
    (h8 : gemini3Guard env ctx = false) :
    (pluginNames env ctx).map PluginName.str =
      ["reasoning-extraction", "simulate-streaming"] := by
  have g1 : reasoningExtractionGuard ctx = true := by
    simp [reasoningExtractionGuard, hp]
  have g2 : simulateStreamingGuard ctx = true := by
    simp [simulateStreamingGuard, hs]
  have g3 : anthropicCacheGuard ctx = false := by
    simp [anthropicCacheGuard, hp]
  have g9 : webSearchGuard ctx = false := by
    simp [webSearchGuard, hws]
  have g10 : searchOrchestrationGuard ctx = false := by
    simp [searchOrchestrationGuard, hst, hpt]
  have g11 : promptToolUseGuard ctx = false := by
    simp [promptToolUseGuard, hpt]
  rw [pluginNames_blocks]
  simp [h0, g1, g2, g3, h4, h5, h6, h7, h8, g9, g10, g11, PluginName.str]

/-- C7 witness: the example evaluated on the concrete example context. -/
theorem buildPlugins_gpt4o_example_witness :
    (pluginNames envNone ctxGpt4o).map PluginName.str =
      ["reasoning-extraction", "simulate-streaming"] :=
  buildPlugins_gpt4o_example envNone ctxGpt4o rfl rfl rfl rfl rfl rfl
    (by decide) (by decide) (by decide) (by decide) (by decide) (by decide)

/-- Filtering a guarded singleton block whose element matches. -/
theorem filter_block_pos {α : Type} (f : α → Bool) (g : Bool) (p : α)
    (h : f p = true) :
    (if g = true then [p] else []).filter f = (if g = true then [p] else []) := by
  cases g <;> simp [h]

/-- Filtering a guarded singleton block whose element does not match. -/
theorem filter_block_neg {α : Type} (f : α → Bool) (g : Bool) (p : α)
    (h : f p = false) :
    (if g = true then [p] else []).filter f = [] := by
  cases g <;> simp [h]

/-- C8: the thinking-token-control (Qwen thinking) plugin is in the output
iff the model supports the vendor thinking-token control, the provider lacks
native enable-thinking support and the provider is not the excluded Ollama
provider; and when present its enablement flag is exactly the presence of
the assistant's reasoning-effort setting. -/
theorem qwenThinking_iff (env : Env) (ctx : BuildPluginsContext) :
    (buildPlugins env ctx).filter
        (fun p => p.name == PluginName.qwenThinking) =
      (if qwenThinkingGuard env ctx then
        [AiPlugin.qwenThinking (enableThinkingFlag ctx)] else []) := by
  rw [buildPlugins_blocks]
  simp only [List.filter_append]
  rw [filter_block_neg _ _ _ rfl, filter_block_neg _ _ _ rfl,
    filter_block_neg _ _ _ rfl, filter_block_neg _ _ _ rfl,
    filter_block_neg _ _ _ rfl, filter_block_neg _ _ _ rfl,
    filter_block_pos _ _ _ rfl, filter_block_neg _ _ _ rfl,
    filter_block_neg _ _ _ rfl, filter_block_neg _ _ _ rfl,
    filter_block_neg _ _ _ rfl, filter_block_neg _ _ _ rfl]
  simp

/-- `Except.ok` on the left of a bind reduces. -/
theorem ok_bind {ε α β : Type} (a : α) (f : α → Except ε β) :
    (Except.ok a >>= f : Except ε β) = f a := rfl

/-- `pure` on the left of a bind reduces. -/
theorem pure_bind_except {ε α β : Type} (a : α) (f : α → Except ε β) :
    ((pure a : Except ε α) >>= f) = f a := rfl

/-- A guarded push whose factory succeeds never fails. -/
theorem pushIfE_ok {ε : Type} (g : Bool) (p : AiPlugin) (l : List AiPlugin) :
    pushIfE (ε := ε) g (Except.ok p) l =
      Except.ok (if g = true then l ++ [p] else l) := by
  cases g <;> rfl

/-- `pure` on `Except` is `Except.ok`. -/
theorem pure_eq_ok {ε α : Type} (a : α) :
    (pure a : Except ε α) = Except.ok a := rfl

/-- An `if` on the literal `false` takes the else branch. -/
theorem if_false_bool {α : Type} (a b : α) : (if false = true then a else b) = b := rfl

/-- An `if` on the literal `true` takes the then branch. -/
theorem if_true_bool {α : Type} (a b : α) : (if true = true then a else b) = a := rfl

/-- C9: the selector itself never fails — under exception semantics, when
every external predicate and factory is total, `buildPluginsE` returns
`Except.ok` of exactly the sequence the pure model `buildPlugins` computes;
any possible error of `buildPluginsE` can therefore originate only from an
external predicate or factory call. -/
theorem buildPluginsE_total (ε : Type) (env : Env) (ctx : BuildPluginsContext) :
    buildPluginsE (EnvE.ofEnv (ε := ε) env) ctx =
      Except.ok (buildPlugins env ctx) := by
  cases htop : truthyStr ctx.config.topicId <;>
  cases hb1 : env.isOllamaProvider ctx.provider <;>
  cases hb2 : env.isSupportedThinkingTokenQwenModel ctx.model <;>
  cases hb3 : env.isSupportEnableThinkingProvider ctx.provider <;>
    simp only [buildPluginsE, EnvE.ofEnv, buildPlugins, telemetryGuard,
      qwenThinkingGuard, generateImageGuard, gemini3Guard, htop, hb1, hb2,
      hb3, pushIfE_ok, ok_bind,
      pure_bind_except, pure_eq_ok, if_false_bool, if_true_bool, if_true,
      if_false, List.nil_append, Bool.true_and, Bool.false_and,
      Bool.not_true, Bool.not_false, Bool.and_true, Bool.and_false]

/-- C10: whenever a telemetry plugin instance is in the output, the context's
topic id was truthy (non-absent and non-empty) — so with an absent or empty
topic id the telemetry plugin is never added, even with developer mode on —
and the topic id handed to the telemetry factory is a non-empty string. -/
theorem telemetry_topicId_nonempty (env : Env) (ctx : BuildPluginsContext)
    (e : Bool) (t : String) (a : Assistant)
    (h : AiPlugin.telemetry e t a ∈ buildPlugins env ctx) :
    truthyStr ctx.config.topicId = true ∧ t ≠ "" := by
  rw [buildPlugins_blocks] at h
  simp [List.mem_append, mem_block] at h
  obtain ⟨hg, he, ht, ha⟩ := h
  rw [telemetryGuard, Bool.and_eq_true] at hg
  refine ⟨hg.1, ?_⟩
  have htr := hg.1
  cases hto : ctx.config.topicId with
  | none => rw [hto] at htr; simp [truthyStr] at htr
  | some s =>
    rw [hto] at htr ht
    simp only [Option.getD_some] at ht
    simp only [truthyStr, ne_eq, decide_eq_true_eq] at htr
    rw [ht]
    exact htr

/-- C10 witness: with developer mode on and topic id `"t1"`, the telemetry
instance carrying `"t1"` is selected and `"t1"` is non-empty. -/
theorem telemetry_topicId_nonempty_witness :
    truthyStr ctxTopic.config.topicId = true ∧ "t1" ≠ "" :=
  telemetry_topicId_nonempty envDev ctxTopic true "t1" assistantW (by decide)

/-- C3 witness: openai provider with streaming off, the pair appears in
order. -/
theorem reasoningExtraction_before_simulateStreaming_witness :
    PluginName.reasoningExtraction ∈ pluginNames envNone ctxOpenai ∧
    PluginName.simulateStreaming ∈ pluginNames envNone ctxOpenai ∧
    ∃ i j : Nat, i < j ∧
      (pluginNames envNone ctxOpenai)[i]? = some PluginName.reasoningExtraction ∧
      (pluginNames envNone ctxOpenai)[j]? = some PluginName.simulateStreaming :=
  reasoningExtraction_before_simulateStreaming envNone ctxOpenai (by decide)
    (by decide)
